import Mathlib

/-!
Shallow embedding of the `odoo-newrelic` module (`newrelic/__init__.py`).

The module is startup glue: it initializes the New Relic agent, monkey-patches
the Odoo WSGI entry point (`http.Application`), optionally wraps ORM methods
with function traces, and wraps the dispatchers' `handle_error` methods.
We embed each patch procedure as a pure function over an explicit state
describing the process-wide attributes the Python code reads and mutates, and
model the caught Python exceptions (`KeyError`, `AttributeError`, `ValueError`
from tuple unpacking) with `Option`/`Except` and explicit flags.
-/

namespace OdooNewRelic

/-- State of `service.server.server.app`: how many times the agent's
`WSGIApplicationWrapper` has been applied to it, and its `_nr_instrumented`
attribute (`none` models an absent attribute, i.e. reading raises
`AttributeError`). -/
structure ServerState where
  appWrapLevel : Nat
  appMarker : Option Bool
  deriving Repr, DecidableEq

/-- Process-wide state read and mutated by `patch_wsgi`:
`appWrapLevel` counts applications of `WSGIApplicationWrapper` to the class
`http.Application` itself (the fallback branch), `appMarker` is the
`_nr_instrumented` attribute on `http.Application` (`none` = absent, so
reading it raises `AttributeError`), `callWrapLevel` counts wraps of
`http.Application.__call__`, `callReadonly` models whether assigning
`http.Application.__call__` raises `AttributeError` (e.g. Sentry middleware
was installed first), `server` is `service.server.server` (`none` = falsy),
and `workers` is the truthiness of `config["workers"]` (only affects
logging). -/
structure WsgiState where
  appWrapLevel : Nat
  appMarker : Option Bool
  callWrapLevel : Nat
  callReadonly : Bool
  server : Option ServerState
  workers : Bool
  deriving Repr, DecidableEq

/-- Embedding of `patch_wsgi`. Returns the Python return value and the updated
process state. Reading `http.Application._nr_instrumented` with the attribute
absent is the caught `AttributeError` (giving `instrumented = False`), hence
the `Option.getD false`. -/
def patch_wsgi (s : WsgiState) : Bool × WsgiState :=
  if s.appMarker.getD false then
    (false, s)
  else if s.callReadonly then
    let s1 : WsgiState := { s with appWrapLevel := s.appWrapLevel + 1 }
    let s2 : WsgiState :=
      match s1.server with
      | none => s1
      | some srv =>
          if srv.appMarker.getD false then s1
          else { s1 with
                 server := some ⟨srv.appWrapLevel + 1, some true⟩ }
    (true, { s2 with appMarker := some true })
  else
    (true, { s with callWrapLevel := s.callWrapLevel + 1, appMarker := some true })

/-- Configuration keys read by `initialize_agent`; `none` models an absent key
(so `config[k]` raises `KeyError`). -/
structure AgentConfig where
  new_relic_config_file : Option String
  new_relic_environment : Option String
  deriving Repr, DecidableEq

/-- Which overload of `newrelic.agent.initialize` ends up being called. -/
inductive InitCall where
  | withFileAndEnv (path env : String)
  | withFile (path : String)
  | envOnly
  deriving Repr, DecidableEq

/-- Embedding of `initialize_agent`: try `initialize(config_file, environment)`;
on `KeyError` retry with `initialize(config_file)`; on `KeyError` again fall
back to `initialize()`. Python evaluates `config['new_relic_config_file']`
first, so a missing config file reaches the env-only fallback regardless of
the environment key. -/
def initialize_agent (c : AgentConfig) : InitCall :=
  match c.new_relic_config_file with
  | none => InitCall.envOnly
  | some p =>
    match c.new_relic_environment with
    | none => InitCall.withFile p
    | some e => InitCall.withFileAndEnv p e

/-- Python whitespace characters stripped by `str.strip()` (ASCII range). -/
def isPySpace (c : Char) : Bool :=
  c = ' ' || c = '\t' || c = '\n' || c = '\x0d' || c = '\x0b' || c = '\x0c'

/-- Embedding of Python `str.strip()`: drop leading and trailing whitespace. -/
def strip (s : String) : String :=
  String.mk (((s.toList.dropWhile isPySpace).reverse.dropWhile isPySpace).reverse)

/-- Splitting a character list on a separator character, Python style:
the empty input yields one empty field, and every separator occurrence starts
a new field. -/
def splitChars (sep : Char) : List Char → List (List Char)
  | [] => [[]]
  | c :: cs =>
    if c = sep then [] :: splitChars sep cs
    else
      match splitChars sep cs with
      | [] => [[c]]
      | h :: t => (c :: h) :: t

/-- Embedding of Python `str.split(sep)` for the one-character separators the
source uses (`','` and `':'`). -/
def split (s : String) (sep : Char) : List String :=
  (splitChars sep s.toList).map String.mk

/-- Embedding of Python `str.startswith(pre)`. -/
def startswith (s : String) (pre : String) : Bool :=
  pre.toList.isPrefixOf s.toList

/-- The fixed "limited" list of traced method paths, verbatim from the source. -/
def limitedPaths : List String :=
  [ "BaseModel.create",
    "BaseModel.read",
    "BaseModel.read_group",
    "BaseModel.write",
    "BaseModel.unlink",
    "BaseModel.search",
    "BaseModel.search_read",
    "BaseModel.search_count" ]

/-- Resolution of one `patch_base : patch_type` pair into concrete method
paths. `attrs` models `dir(odoo.models.BaseModel)` as a list of attribute
names paired with the truth of `callable(getattr(odoo.models.BaseModel, f))`.
Only the base `odoo.models.BaseModel` is recognized; anything else leaves
`_module = None` and produces no paths, as does an unrecognized mode. -/
def resolvePaths (attrs : List (String × Bool)) (patch_base patch_type : String) :
    List String :=
  if patch_base = "odoo.models.BaseModel" then
    if patch_type = "all" then
      (attrs.filter (fun a => a.2 && !(startswith a.1 "__"))).map
        (fun a => "BaseModel." ++ a.1)
    else if patch_type = "public" then
      (attrs.filter (fun a => a.2 && !(startswith a.1 "_"))).map
        (fun a => "BaseModel." ++ a.1)
    else if patch_type = "limited" then
      limitedPaths
    else []
  else []

/-- Embedding of `patch_base, patch_type = patch.split(':')`: the unpacking
succeeds exactly when the split yields two parts, and otherwise raises a
`ValueError`, modelled as `Except.error` carrying the offending pair. -/
def parsePair (p : String) : Except String (String × String) :=
  match split p ':' with
  | [a, b] => Except.ok (a, b)
  | _ => Except.error p

/-- The `for patch in nr_patches` loop inside the `try` block of
`patch_methods`. `acc` accumulates the paths passed to
`newrelic.agent.wrap_function_trace` so far; a `ValueError` raised by the
tuple unpacking aborts the loop, carrying the paths already wrapped and the
offending pair. -/
def applyPatches (attrs : List (String × Bool)) :
    List String → List String → Except (List String × String) (List String)
  | [], acc => Except.ok acc
  | p :: rest, acc =>
    match parsePair p with
    | Except.error msg => Except.error (acc, msg)
    | Except.ok (b, t) => applyPatches attrs rest (acc ++ resolvePaths attrs b t)

/-- Inputs of `patch_methods`: the environment variable `NEW_RELIC_ODOO_TRACE`,
the config key `new_relic_odoo_trace` (each `none` when unset), and the
callable-attribute listing of `odoo.models.BaseModel`. -/
structure MethodsEnv where
  envTrace : Option String
  cfgTrace : Option String
  baseModelAttrs : List (String × Bool)
  deriving Repr, DecidableEq

/-- The `nr_patches` list computed by `patch_methods`:
`os.environ.get('NEW_RELIC_ODOO_TRACE', config.get('new_relic_odoo_trace'))`
gives the env variable when set, else the config value; when the result is
`None` the built-in default applies, else the value is stripped and split on
commas. -/
def nrPatches (e : MethodsEnv) : List String :=
  match e.envTrace with
  | some v => split (strip v) ','
  | none =>
    match e.cfgTrace with
    | some v => split (strip v) ','
    | none => ["odoo.models.BaseModel:limited"]

/-- Embedding of `patch_methods`: run the patch loop; the top-level
`try/except Exception` catches the unpacking error and logs it
(`_logger.exception`). Result: the list of method paths actually wrapped and
whether an exception was caught and logged. The function is total: no
exception reaches the caller. -/
def patch_methods (e : MethodsEnv) : List String × Bool :=
  match applyPatches e.baseModelAttrs (nrPatches e) [] with
  | Except.ok paths => (paths, false)
  | Except.error (paths, _) => (paths, true)

/-- Exception info value passed to the `status_code` callback: either a
werkzeug `HTTPException` instance (whose `code` attribute may itself be
`None` on the bare base class) or any other exception. -/
inductive ExcValue where
  | httpException (code : Option Nat)
  | nonHttp (desc : String)
  deriving Repr, DecidableEq

/-- Embedding of the `status_code(exc, value, tb)` helper inside
`setup_error_handling`: return `value.code` when `isinstance(value,
HTTPException)`, otherwise fall off the end of the function (Python's
implicit `None`). -/
def status_code (exc : String) (value : ExcValue) (tb : String) : Option Nat :=
  match value with
  | ExcValue.httpException c => c
  | ExcValue.nonHttp _ => none

/-- The per-request monitoring context returned by
`newrelic.agent.current_transaction()`. -/
structure Transaction where
  id : Nat
  deriving Repr, DecidableEq

/-- Observable calls the wrapped `handle_error` makes into the agent. -/
inductive AgentEvent where
  | noticeError
  | functionTrace (name : String)
  deriving Repr, DecidableEq

/-- Embedding of the `handle_error` closure produced by
`_nr_wrapper_handle_error`: `tx` is `current_transaction()`, `wrapped` the
original handler, `nameOfArg1` is `callable_name(args[1])`, and `args` the
call arguments. Returns the handler's result together with the agent calls
made (`notice_error`, then the `FunctionTrace` around the delegated call). -/
def handle_error {α β : Type} (tx : Option Transaction) (wrapped : α → β)
    (nameOfArg1 : String) (args : α) : β × List AgentEvent :=
  match tx with
  | none => (wrapped args, [])
  | some _ =>
    (wrapped args, [AgentEvent.noticeError, AgentEvent.functionTrace nameOfArg1])

/-- The five patch procedures `post_load` may invoke, in source order. -/
inductive Step where
  | initialize_agent
  | patch_wsgi
  | patch_bus_controller
  | patch_methods
  | setup_error_handling
  deriving Repr, DecidableEq

/-- Inputs of `post_load`: the truthiness of `config.get("stop_after_init")`
and the WSGI patching state that determines `patch_wsgi`'s return value. -/
structure PostLoadEnv where
  stop_after_init : Bool
  wsgi : WsgiState
  deriving Repr, DecidableEq

/-- Embedding of `post_load` as the trace of patch functions it invokes:
return early when `stop_after_init` is truthy; otherwise call
`initialize_agent`, then `patch_wsgi`, and only when the latter returns
`True` continue with `patch_bus_controller`, `patch_methods`,
`setup_error_handling`, in that order. -/
def post_load (e : PostLoadEnv) : List Step :=
  if e.stop_after_init then []
  else if (patch_wsgi e.wsgi).1 then
    [ Step.initialize_agent, Step.patch_wsgi, Step.patch_bus_controller,
      Step.patch_methods, Step.setup_error_handling ]
  else
    [Step.initialize_agent, Step.patch_wsgi]

theorem parsePair_ok_length (p : String) (x : String × String)
    (h : parsePair p = Except.ok x) : (split p ':').length = 2 := by
  unfold parsePair at h
  rcases hsp : split p ':' with _ | ⟨a, _ | ⟨b, _ | _⟩⟩ <;>
    simp [hsp] at h ⊢

theorem applyPatches_flag (attrs : List (String × Bool)) :
    ∀ (ps : List String) (acc : List String),
      (∃ p ∈ ps, (split p ':').length ≠ 2) →
      ∃ err, applyPatches attrs ps acc = Except.error err := by
  intro ps
  induction ps with
  | nil => intro acc h; simp at h
  | cons p rest ih =>
    intro acc h
    cases hpp : parsePair p with
    | error msg => exact ⟨(acc, msg), by simp [applyPatches, hpp]⟩
    | ok x =>
      obtain ⟨q, hq, hql⟩ := h
      rcases List.mem_cons.mp hq with rfl | hq2
      · exact absurd (parsePair_ok_length q x hpp) hql
      · obtain ⟨b, t⟩ := x
        obtain ⟨err, herr⟩ :=
          ih (acc ++ resolvePaths attrs b t) ⟨q, hq2, hql⟩
        exact ⟨err, by simp [applyPatches, hpp, herr]⟩

/-- C1: if the marker attribute `_nr_instrumented` on `http.Application` is
already set (truthy), `patch_wsgi` returns `False` and leaves the whole state
untouched: no wrap of `__call__`, of the class, or of the server instance. -/
theorem patch_wsgi_second_call_noop (s : WsgiState)
    (h : s.appMarker = some true) : patch_wsgi s = (false, s) := by
  simp [patch_wsgi, h]

theorem patch_wsgi_second_call_noop_witness :
    patch_wsgi ⟨0, some true, 1, false, none, true⟩ =
      (false, ⟨0, some true, 1, false, none, true⟩) :=
  patch_wsgi_second_call_noop ⟨0, some true, 1, false, none, true⟩ rfl

/-- C2: whenever the marker is not already set, `patch_wsgi` makes a patch
attempt, returns `True`, and on return the marker on the top-level class has
been set to `True` (in both the in-place branch and the fallback branch); and
it returns `False` only on the short-circuit no-op path, where the state is
unchanged. -/
theorem patch_wsgi_returns (s : WsgiState) :
    (s.appMarker.getD false = false →
      (patch_wsgi s).1 = true ∧ (patch_wsgi s).2.appMarker = some true) ∧
    ((patch_wsgi s).1 = false →
      s.appMarker.getD false = true ∧ (patch_wsgi s).2 = s) := by
  constructor
  · intro h
    unfold patch_wsgi
    rw [h]
    by_cases hc : s.callReadonly
    · cases hsrv : s.server with
      | none => simp [hc, hsrv]
      | some srv =>
        by_cases hm : srv.appMarker.getD false <;> simp [hc, hsrv, hm]
    · simp [hc]
  · intro h
    by_cases hm : s.appMarker.getD false
    · refine ⟨hm, ?_⟩
      simp [patch_wsgi, hm]
    · exfalso
      rw [Bool.not_eq_true] at hm
      unfold patch_wsgi at h
      rw [hm] at h
      by_cases hc : s.callReadonly
      · cases hsrv : s.server with
        | none => simp [hc, hsrv] at h
        | some srv =>
          by_cases hsm : srv.appMarker.getD false <;>
            simp [hc, hsrv, hsm] at h
      · simp [hc] at h

theorem patch_wsgi_returns_witness :
    ((patch_wsgi ⟨0, none, 0, false, none, true⟩).1 = true ∧
      (patch_wsgi ⟨0, none, 0, false, none, true⟩).2.appMarker = some true) :=
  (patch_wsgi_returns ⟨0, none, 0, false, none, true⟩).1 rfl

/-- C3: when `stop_after_init` is truthy, `post_load` invokes none of the
patch functions; otherwise it invokes `initialize_agent` then `patch_wsgi`,
and invokes `patch_bus_controller`, `patch_methods` and
`setup_error_handling`, in that order, exactly when `patch_wsgi` returned
`True`. -/
theorem post_load_control_flow (e : PostLoadEnv) :
    (e.stop_after_init = true → post_load e = []) ∧
    (e.stop_after_init = false →
      ((patch_wsgi e.wsgi).1 = true →
        post_load e =
          [ Step.initialize_agent, Step.patch_wsgi, Step.patch_bus_controller,
            Step.patch_methods, Step.setup_error_handling ]) ∧
      ((patch_wsgi e.wsgi).1 = false →
        post_load e = [Step.initialize_agent, Step.patch_wsgi])) := by
  refine ⟨fun h => by simp [post_load, h], fun h => ⟨?_, ?_⟩⟩ <;>
    intro hw <;> simp [post_load, h, hw]

theorem post_load_control_flow_witness :
    post_load ⟨false, ⟨0, none, 0, false, none, true⟩⟩ =
      [ Step.initialize_agent, Step.patch_wsgi, Step.patch_bus_controller,
        Step.patch_methods, Step.setup_error_handling ] :=
  ((post_load_control_flow ⟨false, ⟨0, none, 0, false, none, true⟩⟩).2 rfl).1 rfl

/-- C4: when `current_transaction()` is `None`, the wrapped `handle_error`
is a pure pass-through: it calls the original handler on the identical
arguments, returns its result unchanged, and makes no agent call. -/
theorem handle_error_no_transaction {α β : Type} (wrapped : α → β)
    (nameOfArg1 : String) (args : α) :
    handle_error none wrapped nameOfArg1 args = (wrapped args, []) := rfl

/-- C5: the `status_code` helper returns the exception's own `code` for any
werkzeug `HTTPException` (in particular `404` for an HTTP exception with code
404) and `None` for every non-HTTP exception. -/
theorem status_code_spec (exc tb : String) :
    (∀ c : Option Nat,
      status_code exc (ExcValue.httpException c) tb = c) ∧
    status_code exc (ExcValue.httpException (some 404)) tb = some 404 ∧
    (∀ d : String, status_code exc (ExcValue.nonHttp d) tb = none) :=
  ⟨fun _ => rfl, rfl, fun _ => rfl⟩

/-- C6: with both `NEW_RELIC_ODOO_TRACE` and `new_relic_odoo_trace` unset,
`patch_methods` resolves exactly the fixed 8-name limited list on
`odoo.models.BaseModel` and wraps exactly those method paths, with no error
logged. -/
theorem patch_methods_default_limited (attrs : List (String × Bool)) :
    patch_methods ⟨none, none, attrs⟩ =
      ([ "BaseModel.create", "BaseModel.read", "BaseModel.read_group",
         "BaseModel.write", "BaseModel.unlink", "BaseModel.search",
         "BaseModel.search_read", "BaseModel.search_count" ], false) := by
  rfl

theorem patch_methods_public_eq (attrs : List (String × Bool)) :
    (patch_methods ⟨some "odoo.models.BaseModel:public", none, attrs⟩).1 =
      (attrs.filter (fun a => a.2 && !(startswith a.1 "_"))).map
        (fun a => "BaseModel." ++ a.1) := by
  rfl

/-- C7: with the trace configuration `"odoo.models.BaseModel:public"`, every
method path `patch_methods` wraps is `BaseModel.` followed by the name of a
callable attribute of the base class that does not start with an
underscore. -/
theorem patch_methods_public_names (attrs : List (String × Bool)) (p : String)
    (hp : p ∈ (patch_methods
        ⟨some "odoo.models.BaseModel:public", none, attrs⟩).1) :
    ∃ n, p = "BaseModel." ++ n ∧ (n, true) ∈ attrs ∧
      startswith n "_" = false := by
  rw [patch_methods_public_eq] at hp
  obtain ⟨⟨n, c⟩, ha, rfl⟩ := List.mem_map.mp hp
  have h1 := List.mem_filter.mp ha
  have h2 : c = true ∧ (!(startswith n "_")) = true := by
    simpa [Bool.and_eq_true] using h1.2
  obtain ⟨hc, hn⟩ := h2
  subst hc
  exact ⟨n, rfl, h1.1, by simpa using hn⟩

theorem patch_methods_public_names_witness :
    ∃ n, "BaseModel.read" = "BaseModel." ++ n ∧
      (n, true) ∈ [("_private", true), ("read", true), ("browse", false)] ∧
      startswith n "_" = false :=
  patch_methods_public_names
    [("_private", true), ("read", true), ("browse", false)]
    "BaseModel.read" (by decide)

/-- C8: for every trace specification whose split contains a malformed pair
(one that does not split on `:` into exactly two parts), the tuple-unpacking
`ValueError` is caught by the top-level handler and logged
(`patch_methods` reports the caught exception), and no exception reaches the
caller: `patch_methods` is total and still returns its pair of wrapped paths
and error flag, so any methods wrapped from pairs processed earlier stay
wrapped. -/
theorem patch_methods_malformed_logged (e : MethodsEnv)
    (h : ∃ p ∈ nrPatches e, (split p ':').length ≠ 2) :
    (patch_methods e).2 = true := by
  obtain ⟨err, herr⟩ := applyPatches_flag e.baseModelAttrs (nrPatches e) [] h
  obtain ⟨paths, msg⟩ := err
  simp [patch_methods, herr]

theorem patch_methods_malformed_logged_witness :
    (patch_methods ⟨some "odoo.models.BaseModel", none,
        [("read", true)]⟩).2 = true :=
  patch_methods_malformed_logged
    ⟨some "odoo.models.BaseModel", none, [("read", true)]⟩ (by decide)

/-- C9: `initialize_agent` calls `initialize(path, env)` when both config
keys are present; retries with `initialize(path)` when only the environment
key lookup fails; falls back to `initialize()` when the config-file lookup
fails; being a total function of the configuration, no exception escapes to
its caller. -/
theorem initialize_agent_fallback :
    (∀ p e, initialize_agent ⟨some p, some e⟩ = InitCall.withFileAndEnv p e) ∧
    (∀ p, initialize_agent ⟨some p, none⟩ = InitCall.withFile p) ∧
    (∀ env, initialize_agent ⟨none, env⟩ = InitCall.envOnly) :=
  ⟨fun _ _ => rfl, fun _ => rfl, fun _ => rfl⟩

/-- C10: with the trace configuration explicitly set to the empty string
(via the environment variable or via the config key), stripping and splitting
yields the single empty pair `""`, whose unpacking fails; the top-level
handler catches and logs it, no method is wrapped, and no exception reaches
the caller. -/
theorem patch_methods_empty_string (cfg : Option String)
    (attrs : List (String × Bool)) :
    patch_methods ⟨some "", cfg, attrs⟩ = ([], true) ∧
    patch_methods ⟨none, some "", attrs⟩ = ([], true) :=
  ⟨rfl, rfl⟩

end OdooNewRelic
